import Mathlib

/-!
Verification of the Postfix address-resolver client
(`src/postfix/src/global/resolve_clnt.c`).

The C module is a synchronous RPC stub with a one-entry result cache and an
unbounded retry loop.  We embed it shallowly:

* C strings (`char *`, `VSTRING`) are Lean `String`s; the C test `*s == 0`
  becomes `s = ""`.
* The file-scope mutable state (`last_addr`, `last_reply`,
  `rewrite_clnt_stream`) is an explicit `ClntState` threaded through the
  query function.
* The network is an oracle: a list of `NetEvent`s, one per iteration of the
  retry loop (a failed write/flush, a failed strict attribute scan, or a
  parsed reply).  The real loop runs forever; a run that exhausts the finite
  oracle is reported as `pending` with the state as it stands, which lets us
  observe that the cache is untouched while the loop is still retrying.
* Observable effects (stream creation, stream access, request write, reply
  read, warnings, sleeps, recoveries) are recorded in an `Action` trace, so
  that "performs no network I/O" and "warns, sleeps and recovers before
  retrying" become statements about the trace.
* The aliasing sanity check `addr == STR(reply->recipient)` is a C pointer
  comparison; pointers are modelled as `Nat` addresses (`addrPtr`,
  `recipPtr`), passed alongside the string value of `addr`.
-/

set_option autoImplicit false

namespace ResolveClnt

/-- Mirrors the C struct RESOLVE_REPLY: three VSTRING fields (modelled as
strings) and the int flags word (modelled as Nat: replies carry OR-ed
nonnegative flag bits). -/
structure RESOLVE_REPLY where
  transport : String
  nexthop : String
  recipient : String
  flags : Nat
deriving Repr, DecidableEq

/-- resolve_clnt_init: fresh VSTRINGs hold the empty string, flags are 0. -/
def resolve_clnt_init : RESOLVE_REPLY :=
  { transport := "", nexthop := "", recipient := "", flags := 0 }

/-- The module's file-scope mutable state: `last_addr_alloc` models
`last_addr != 0` (the lazily allocated cache), `last_addr`/`last_reply` are
the one-entry cache, `stream_exists` models `rewrite_clnt_stream != 0`. -/
structure ClntState where
  last_addr_alloc : Bool
  last_addr : String
  last_reply : RESOLVE_REPLY
  stream_exists : Bool
deriving Repr, DecidableEq

/-- Configuration read by the client: verbosity, the service name passed to
clnt_stream_create (the C code passes var_rewrite_service, the rewrite
service parameter: the stream is shared with the rewrite client and the same
daemon implements the resolve request), and the two IPC tunables. -/
structure Config where
  msg_verbose : Bool
  var_rewrite_service : String
  var_ipc_idle_limit : Nat
  var_ipc_ttl_limit : Nat
deriving Repr, DecidableEq

/-- errno value for a broken pipe on Linux (system header, not in src). -/
def EPIPE : Nat := 32

/-- errno value for a missing file/socket on Linux (system header, not in src). -/
def ENOENT : Nat := 2

/-- Modelled from the spec: the private service class name used for the
client stream ("a private-class service name", mail_proto.h is not in src). -/
def MAIL_CLASS_PRIVATE : String := "private"

/-- Modelled from the spec: the resolve request verb of the wire protocol
("request verb (string, value resolve)"; mail_proto.h is not in src). -/
def RESOLVE_ADDR : String := "resolve"

/-- Modelled from the spec: wire attribute name of the request verb. -/
def MAIL_ATTR_REQ : String := "request"

/-- Modelled from the spec: wire attribute name of the queried address. -/
def MAIL_ATTR_ADDR : String := "address"

/-- Modelled from the spec: wire attribute name of the transport result. -/
def MAIL_ATTR_TRANSPORT : String := "transport"

/-- Modelled from the spec: wire attribute name of the next-hop result. -/
def MAIL_ATTR_NEXTHOP : String := "nexthop"

/-- Modelled from the spec: wire attribute name of the recipient result. -/
def MAIL_ATTR_RECIP : String := "recipient"

/-- Modelled from the spec: wire attribute name of the flags result. -/
def MAIL_ATTR_FLAGS : String := "flags"

/-- Modelled from the spec: reply flag bits (resolve_clnt.h is not in src;
bit positions follow the declaration order of the flag set in the spec). -/
def RESOLVE_FLAG_FINAL : Nat := 1

/-- Modelled from the spec: "localpart carries further routing" flag bit. -/
def RESOLVE_FLAG_ROUTED : Nat := 2

/-- Modelled from the spec: "address has invalid syntax" flag bit. -/
def RESOLVE_FLAG_ERROR : Nat := 4

/-- Modelled from the spec: "request could not be completed" flag bit. -/
def RESOLVE_FLAG_FAIL : Nat := 8

/-- One iteration of the retry loop sees one of: a failed attr_print or
vstream_fflush (with the errno it left), a strict attr_scan that did not
return 4 (missing or unexpected attributes, or a read error, with errno), or
a parsed reply carrying the four attribute values. -/
inductive NetEvent where
  | writeFail (errno : Nat)
  | readFail (errno : Nat)
  | reply (transport nexthop recipient : String) (flags : Nat)
deriving Repr, DecidableEq

/-- Observable actions of one query, in order. -/
inductive Action where
  | createStream (cls service : String) (idle ttl : Nat)
  | accessStream
  | writeRequest (reqAttr reqVerb addrAttr addrVal : String)
  | readReply (strict : Bool) (attrs : List String)
  | warnBadWrite
  | warnBadRead
  | warnNullTransport
  | warnNullRecipient
  | sleepSecs (n : Nat)
  | recover
deriving Repr, DecidableEq

/-- The warning policy of the loop: msg_warn runs when msg_verbose is set or
errno is neither EPIPE nor ENOENT. -/
def warnIf (cfg : Config) (e : Nat) (w : Action) : List Action :=
  if cfg.msg_verbose ∨ (e ≠ EPIPE ∧ e ≠ ENOENT) then [w] else []

/-- The fixed attribute shape demanded of a reply by the strict attr_scan
call: transport, nexthop, recipient, flags, in this order. -/
def scanAttrs : List String :=
  [MAIL_ATTR_TRANSPORT, MAIL_ATTR_NEXTHOP, MAIL_ATTR_RECIP, MAIL_ATTR_FLAGS]

/-- Every iteration first accesses the stream and attempts to write the
two-attribute request frame (verb and address). -/
def requestActs (addr : String) : List Action :=
  [Action.accessStream,
   Action.writeRequest MAIL_ATTR_REQ RESOLVE_ADDR MAIL_ATTR_ADDR addr]

/-- One iteration of the for(;;) loop, driven by one tick of the network
oracle: returns the accepted reply (if the iteration breaks out of the loop)
and the actions of the iteration.  Mirrors lines 185-217 of the C file:
failed write warns (suppressed for EPIPE/ENOENT unless verbose); failed
strict scan likewise; a parsed reply with empty transport, or with empty
recipient for a nonempty address, warns unconditionally; every failure path
then sleeps 10 seconds and recovers the stream. -/
def iterOutcome (cfg : Config) (addr : String) (ev : NetEvent) :
    Option RESOLVE_REPLY × List Action :=
  match ev with
  | NetEvent.writeFail e =>
      (none, requestActs addr ++ warnIf cfg e Action.warnBadWrite
        ++ [Action.sleepSecs 10, Action.recover])
  | NetEvent.readFail e =>
      (none, requestActs addr ++ [Action.readReply true scanAttrs]
        ++ warnIf cfg e Action.warnBadRead
        ++ [Action.sleepSecs 10, Action.recover])
  | NetEvent.reply t h r f =>
      if t = "" then
        (none, requestActs addr ++ [Action.readReply true scanAttrs,
          Action.warnNullTransport, Action.sleepSecs 10, Action.recover])
      else if r = "" ∧ addr ≠ "" then
        (none, requestActs addr ++ [Action.readReply true scanAttrs,
          Action.warnNullRecipient, Action.sleepSecs 10, Action.recover])
      else
        (some { transport := t, nexthop := h, recipient := r, flags := f },
         requestActs addr ++ [Action.readReply true scanAttrs])

/-- The retry loop: keep iterating until an iteration accepts a reply, or
the oracle runs out (the real loop would keep going). -/
def retryLoop (cfg : Config) (addr : String) :
    List NetEvent → Option RESOLVE_REPLY × List Action
  | [] => (none, [])
  | ev :: evs =>
      match iterOutcome cfg addr ev with
      | (some rep, acts) => (some rep, acts)
      | (none, acts) =>
          let rest := retryLoop cfg addr evs
          (rest.1, acts ++ rest.2)

/-- Outcome of one resolve_clnt_query call: a panic (the aliasing check
fired), a normal return carrying the caller-visible reply and the new module
state, or a truncated run (oracle exhausted while the loop was still
retrying) carrying the state as it stands. -/
inductive QueryResult where
  | panicked (msg : String)
  | ok (reply : RESOLVE_REPLY) (st : ClntState)
  | pending (st : ClntState)
deriving Repr, DecidableEq

/-- A query's result together with its action trace. -/
structure QueryOut where
  result : QueryResult
  trace : List Action
deriving Repr, DecidableEq

/-- Lines 145-148: on first entry allocate last_addr (empty contents) and
initialize the embedded last_reply. -/
def lazyInit (st : ClntState) : ClntState :=
  if st.last_addr_alloc then st
  else { last_addr_alloc := true, last_addr := "",
         last_reply := resolve_clnt_init, stream_exists := st.stream_exists }

/-- Lines 179-183: actions of the lazy stream creation. -/
def ensureStreamActs (cfg : Config) (st : ClntState) : List Action :=
  if st.stream_exists then []
  else [Action.createStream MAIL_CLASS_PRIVATE cfg.var_rewrite_service
          cfg.var_ipc_idle_limit cfg.var_ipc_ttl_limit]

/-- After the creation step the stream exists. -/
def ensureStream (st : ClntState) : ClntState :=
  { st with stream_exists := true }

/-- The diagnostic of the aliasing panic (line 157). -/
def panicMsg : String := "resolve_clnt_query: result clobbers input"

/-- The cache-miss tail of a query: ensure the stream, run the retry loop;
on success overwrite the cache with the input address and the accepted reply
(lines 219-227), otherwise report the run truncated with the cache fields
untouched. -/
def queryMiss (cfg : Config) (addr : String) (st1 : ClntState)
    (evs : List NetEvent) : QueryOut :=
  match retryLoop cfg addr evs with
  | (some rep, acts) =>
      { result := QueryResult.ok rep
          { ensureStream st1 with last_addr := addr, last_reply := rep },
        trace := ensureStreamActs cfg st1 ++ acts }
  | (none, acts) =>
      { result := QueryResult.pending (ensureStream st1),
        trace := ensureStreamActs cfg st1 ++ acts }

/-- resolve_clnt_query (lines 137-227).  `addrPtr` is the pointer value of
`addr`, `recipPtr` the pointer value of `STR(reply->recipient)`; the sanity
check compares the two pointers.  After the lazy cache init and the sanity
check, a nonempty address byte-equal to the cached one is answered from the
cache with no I/O; otherwise the stream is created if absent and the retry
loop runs. -/
def resolve_clnt_query (cfg : Config) (addrPtr recipPtr : Nat)
    (addr : String) (st : ClntState) (evs : List NetEvent) : QueryOut :=
  let st1 := lazyInit st
  if addrPtr = recipPtr then
    { result := QueryResult.panicked panicMsg, trace := [] }
  else if addr ≠ "" ∧ addr = st1.last_addr then
    { result := QueryResult.ok st1.last_reply st1, trace := [] }
  else
    queryMiss cfg addr st1 evs

/-- `p` points into the storage of a buffer that starts at `base` and spans
`size` bytes. -/
def pointsInto (p base size : Nat) : Prop :=
  base ≤ p ∧ p < base + size

/-- Reachable-state invariant of the one-entry cache: either the cache is
still unallocated, or a nonempty cached key is accompanied by a validated
cached reply (nonempty transport and recipient). -/
def cacheInv (st : ClntState) : Prop :=
  st.last_addr_alloc = false ∨
    (st.last_addr ≠ "" →
      st.last_reply.transport ≠ "" ∧ st.last_reply.recipient ≠ "")

/-- A default configuration used by concrete runs. -/
def cfg0 : Config :=
  { msg_verbose := false, var_rewrite_service := "rewrite",
    var_ipc_idle_limit := 100, var_ipc_ttl_limit := 1000 }

/-- The module state at process start: nothing allocated, no stream. -/
def st0 : ClntState :=
  { last_addr_alloc := false, last_addr := "",
    last_reply := resolve_clnt_init, stream_exists := false }

/-- A validated daemon reply used by concrete runs. -/
def rep0 : RESOLVE_REPLY :=
  { transport := "smtp", nexthop := "mx", recipient := "a", flags := 0 }

/-- The module state after a successful first query for "a". -/
def stA : ClntState :=
  { last_addr_alloc := true, last_addr := "a", last_reply := rep0,
    stream_exists := true }

example :
    (resolve_clnt_query cfg0 1 0 "a" st0
      [NetEvent.reply "smtp" "mx" "a" 0]).result = QueryResult.ok rep0 stA := by
  decide

example :
    resolve_clnt_query cfg0 1 0 "a" stA [] =
      { result := QueryResult.ok rep0 stA, trace := [] } := by
  decide

/-! Basic lemmas about the embedding. -/

theorem lazyInit_alloc (st : ClntState) : (lazyInit st).last_addr_alloc = true := by
  unfold lazyInit
  split
  · assumption
  · rfl

theorem lazyInit_stream (st : ClntState) :
    (lazyInit st).stream_exists = st.stream_exists := by
  unfold lazyInit
  split <;> rfl

theorem lazyInit_of_alloc (st : ClntState) (h : st.last_addr_alloc = true) :
    lazyInit st = st := by
  unfold lazyInit
  simp [h]

theorem retryLoop_nil (cfg : Config) (addr : String) :
    retryLoop cfg addr [] = (none, []) := rfl

theorem retryLoop_cons_none (cfg : Config) (addr : String) (ev : NetEvent)
    (evs : List NetEvent) (acts : List Action)
    (h : iterOutcome cfg addr ev = (none, acts)) :
    retryLoop cfg addr (ev :: evs) =
      ((retryLoop cfg addr evs).1, acts ++ (retryLoop cfg addr evs).2) := by
  simp only [retryLoop]
  rw [h]

theorem retryLoop_cons_some (cfg : Config) (addr : String) (ev : NetEvent)
    (evs : List NetEvent) (rep : RESOLVE_REPLY) (acts : List Action)
    (h : iterOutcome cfg addr ev = (some rep, acts)) :
    retryLoop cfg addr (ev :: evs) = (some rep, acts) := by
  simp only [retryLoop]
  rw [h]

/-- An iteration accepts a reply only if it passed validation: nonempty
transport, and nonempty recipient when the input address is nonempty. -/
theorem iterOutcome_some_valid (cfg : Config) (addr : String) (ev : NetEvent)
    (rep : RESOLVE_REPLY) (acts : List Action)
    (h : iterOutcome cfg addr ev = (some rep, acts)) :
    rep.transport ≠ "" ∧ (addr ≠ "" → rep.recipient ≠ "") := by
  cases ev with
  | writeFail e => simp [iterOutcome] at h
  | readFail e => simp [iterOutcome] at h
  | reply t hh r f =>
      simp only [iterOutcome] at h
      split at h
      · simp at h
      · split at h
        · simp at h
        · rename_i ht hr
          injection h with h1 h2
          injection h1 with h1
          cases h1
          refine ⟨ht, ?_⟩
          intro ha hre
          exact hr ⟨hre, ha⟩

/-- The loop breaks only on a validated reply. -/
theorem retryLoop_some_valid (cfg : Config) (addr : String)
    (evs : List NetEvent) (rep : RESOLVE_REPLY) (acts : List Action)
    (h : retryLoop cfg addr evs = (some rep, acts)) :
    rep.transport ≠ "" ∧ (addr ≠ "" → rep.recipient ≠ "") := by
  induction evs generalizing acts with
  | nil => simp [retryLoop] at h
  | cons ev evs ih =>
      rcases hiter : iterOutcome cfg addr ev with ⟨res, iacts⟩
      cases res with
      | some rep1 =>
          rw [retryLoop_cons_some cfg addr ev evs rep1 iacts hiter] at h
          injection h with h1 h2
          injection h1 with h1
          cases h1
          exact iterOutcome_some_valid cfg addr ev rep iacts hiter
      | none =>
          rw [retryLoop_cons_none cfg addr ev evs iacts hiter] at h
          injection h with h1 h2
          exact ih (retryLoop cfg addr evs).2 (by rw [← h1])

/-- Unfolding a query for which the sanity check passed and the cache probe
hit. -/
theorem query_hit (cfg : Config) (p b : Nat) (addr : String) (st : ClntState)
    (evs : List NetEvent) (hp : p ≠ b)
    (hhit : addr ≠ "" ∧ addr = (lazyInit st).last_addr) :
    resolve_clnt_query cfg p b addr st evs =
      { result := QueryResult.ok (lazyInit st).last_reply (lazyInit st),
        trace := [] } := by
  simp only [resolve_clnt_query]
  rw [if_neg hp, if_pos hhit]

/-- Unfolding a query for which the sanity check passed and the cache probe
missed. -/
theorem query_miss_eq (cfg : Config) (p b : Nat) (addr : String)
    (st : ClntState) (evs : List NetEvent) (hp : p ≠ b)
    (hmiss : ¬(addr ≠ "" ∧ addr = (lazyInit st).last_addr)) :
    resolve_clnt_query cfg p b addr st evs =
      queryMiss cfg addr (lazyInit st) evs := by
  simp only [resolve_clnt_query]
  rw [if_neg hp, if_neg hmiss]

/-- Unfolding the miss tail when the loop accepts a reply. -/
theorem queryMiss_some (cfg : Config) (addr : String) (st1 : ClntState)
    (evs : List NetEvent) (rep : RESOLVE_REPLY) (acts : List Action)
    (h : retryLoop cfg addr evs = (some rep, acts)) :
    queryMiss cfg addr st1 evs =
      { result := QueryResult.ok rep
          { ensureStream st1 with last_addr := addr, last_reply := rep },
        trace := ensureStreamActs cfg st1 ++ acts } := by
  simp only [queryMiss]
  rw [h]

/-- Unfolding the miss tail when the oracle runs out. -/
theorem queryMiss_none (cfg : Config) (addr : String) (st1 : ClntState)
    (evs : List NetEvent) (acts : List Action)
    (h : retryLoop cfg addr evs = (none, acts)) :
    queryMiss cfg addr st1 evs =
      { result := QueryResult.pending (ensureStream st1),
        trace := ensureStreamActs cfg st1 ++ acts } := by
  simp only [queryMiss]
  rw [h]

/-- Any normal return leaves the cache holding exactly the input address and
the returned reply, with the cache allocated. -/
theorem query_ok_state (cfg : Config) (p b : Nat) (addr : String)
    (st : ClntState) (evs : List NetEvent) (rep : RESOLVE_REPLY)
    (st' : ClntState)
    (h : (resolve_clnt_query cfg p b addr st evs).result =
          QueryResult.ok rep st') :
    st'.last_addr_alloc = true ∧ st'.last_addr = addr ∧ st'.last_reply = rep := by
  by_cases hp : p = b
  · simp [resolve_clnt_query, hp] at h
  · by_cases hhit : addr ≠ "" ∧ addr = (lazyInit st).last_addr
    · rw [query_hit cfg p b addr st evs hp hhit] at h
      injection h with h1 h2
      cases h1
      cases h2
      exact ⟨lazyInit_alloc st, hhit.2.symm, rfl⟩
    · rcases hloop : retryLoop cfg addr evs with ⟨res, acts⟩
      cases res with
      | some rep1 =>
          rw [query_miss_eq cfg p b addr st evs hp hhit,
              queryMiss_some cfg addr (lazyInit st) evs rep1 acts hloop] at h
          injection h with h1 h2
          cases h1
          cases h2
          exact ⟨lazyInit_alloc st, rfl, rfl⟩
      | none =>
          rw [query_miss_eq cfg p b addr st evs hp hhit,
              queryMiss_none cfg addr (lazyInit st) evs acts hloop] at h
          exact absurd h (by simp)

/-! Claim theorems. -/

/-- C1: for every call to resolve_clnt_query that returns normally to the
caller (from a state satisfying the reachable-state cache invariant), the
reply's transport string is non-empty, and if the input address is non-empty
then the reply's recipient string is non-empty. -/
theorem C1_reply_validity (cfg : Config) (p b : Nat) (addr : String)
    (st : ClntState) (evs : List NetEvent) (rep : RESOLVE_REPLY)
    (st' : ClntState) (hinv : cacheInv st)
    (hok : (resolve_clnt_query cfg p b addr st evs).result =
            QueryResult.ok rep st') :
    rep.transport ≠ "" ∧ (addr ≠ "" → rep.recipient ≠ "") := by
  by_cases hp : p = b
  · simp [resolve_clnt_query, hp] at hok
  · by_cases hhit : addr ≠ "" ∧ addr = (lazyInit st).last_addr
    · rw [query_hit cfg p b addr st evs hp hhit] at hok
      injection hok with h1 h2
      cases h1
      cases hA : st.last_addr_alloc with
      | false =>
          exfalso
          apply hhit.1
          have h2 := hhit.2
          simp [lazyInit, hA] at h2
          exact h2
      | true =>
          rw [lazyInit_of_alloc st hA] at hhit ⊢
          rcases hinv with hinv | hinv
          · rw [hA] at hinv
            exact absurd hinv (by simp)
          · have hkey : st.last_addr ≠ "" := hhit.2 ▸ hhit.1
            obtain ⟨ht, hr⟩ := hinv hkey
            exact ⟨ht, fun _ => hr⟩
    · rcases hloop : retryLoop cfg addr evs with ⟨res, acts⟩
      cases res with
      | some rep1 =>
          rw [query_miss_eq cfg p b addr st evs hp hhit,
              queryMiss_some cfg addr (lazyInit st) evs rep1 acts hloop] at hok
          injection hok with h1 h2
          cases h1
          exact retryLoop_some_valid cfg addr evs rep acts hloop
      | none =>
          rw [query_miss_eq cfg p b addr st evs hp hhit,
              queryMiss_none cfg addr (lazyInit st) evs acts hloop] at hok
          exact absurd hok (by simp)

/-- Witness for C1 at a concrete run. -/
theorem C1_reply_validity_witness :
    cacheInv st0 ∧
    (resolve_clnt_query cfg0 1 0 "a" st0
        [NetEvent.reply "smtp" "mx" "a" 0]).result = QueryResult.ok rep0 stA ∧
    (rep0.transport ≠ "" ∧ ("a" ≠ "" → rep0.recipient ≠ "")) := by
  refine ⟨Or.inl rfl, by decide, ?_⟩
  exact C1_reply_validity cfg0 1 0 "a" st0 [NetEvent.reply "smtp" "mx" "a" 0]
    rep0 stA (Or.inl rfl) (by decide)

/-- C2: after a successful query for a non-empty address, an immediately
following query for the same address (with any pointer arguments passing the
sanity check, any configuration, and any network oracle) is answered from
the one-entry cache: it returns the same four fields, leaves the state
unchanged, and its trace is empty, so no network I/O happens. -/
theorem C2_cached_idempotence (cfg cfg2 : Config) (p b p2 b2 : Nat)
    (addr : String) (st : ClntState) (evs evs2 : List NetEvent)
    (r1 : RESOLVE_REPLY) (st1 : ClntState)
    (haddr : addr ≠ "") (hp2 : p2 ≠ b2)
    (h1 : (resolve_clnt_query cfg p b addr st evs).result =
           QueryResult.ok r1 st1) :
    resolve_clnt_query cfg2 p2 b2 addr st1 evs2 =
      { result := QueryResult.ok r1 st1, trace := [] } := by
  obtain ⟨hA, hKey, hRep⟩ := query_ok_state cfg p b addr st evs r1 st1 h1
  have hhit : addr ≠ "" ∧ addr = (lazyInit st1).last_addr := by
    rw [lazyInit_of_alloc st1 hA]
    exact ⟨haddr, hKey.symm⟩
  rw [query_hit cfg2 p2 b2 addr st1 evs2 hp2 hhit,
      lazyInit_of_alloc st1 hA, hRep]

/-- Witness for C2 at a concrete pair of runs. -/
theorem C2_cached_idempotence_witness :
    ("a" ≠ "" ∧ 2 ≠ 7 ∧
      (resolve_clnt_query cfg0 1 0 "a" st0
          [NetEvent.reply "smtp" "mx" "a" 0]).result =
        QueryResult.ok rep0 stA) ∧
    resolve_clnt_query cfg0 2 7 "a" stA [] =
      { result := QueryResult.ok rep0 stA, trace := [] } := by
  refine ⟨⟨by decide, by decide, by decide⟩, ?_⟩
  exact C2_cached_idempotence cfg0 cfg0 1 0 2 7 "a" st0
    [NetEvent.reply "smtp" "mx" "a" 0] [] rep0 stA
    (by decide) (by decide) (by decide)

/-- C3: on a cache miss the cache is written only after a reply passes
validation — while the retry loop is still going (truncated run) the cache
fields are exactly those after the lazy init — and a successful miss
overwrites the cache unconditionally with the verbatim input address and the
verbatim accepted reply. -/
theorem C3_cache_update (cfg : Config) (p b : Nat) (addr : String)
    (st : ClntState) (evs : List NetEvent) (rep : RESOLVE_REPLY)
    (stOk stP : ClntState)
    (hmiss : ¬(addr ≠ "" ∧ addr = (lazyInit st).last_addr)) :
    ((resolve_clnt_query cfg p b addr st evs).result =
        QueryResult.ok rep stOk →
      stOk.last_addr = addr ∧ stOk.last_reply = rep) ∧
    ((resolve_clnt_query cfg p b addr st evs).result =
        QueryResult.pending stP →
      stP.last_addr = (lazyInit st).last_addr ∧
      stP.last_reply = (lazyInit st).last_reply) := by
  constructor
  · intro hok
    obtain ⟨-, hKey, hRep⟩ := query_ok_state cfg p b addr st evs rep stOk hok
    exact ⟨hKey, hRep⟩
  · intro hpend
    by_cases hp : p = b
    · simp [resolve_clnt_query, hp] at hpend
    · rcases hloop : retryLoop cfg addr evs with ⟨res, acts⟩
      cases res with
      | some rep1 =>
          rw [query_miss_eq cfg p b addr st evs hp hmiss,
              queryMiss_some cfg addr (lazyInit st) evs rep1 acts hloop]
            at hpend
          exact absurd hpend (by simp)
      | none =>
          rw [query_miss_eq cfg p b addr st evs hp hmiss,
              queryMiss_none cfg addr (lazyInit st) evs acts hloop] at hpend
          injection hpend with h1
          cases h1
          exact ⟨rfl, rfl⟩

/-- Witness for C3 at a concrete missing run. -/
theorem C3_cache_update_witness :
    (¬("a" ≠ "" ∧ "a" = (lazyInit st0).last_addr)) ∧
    (((resolve_clnt_query cfg0 1 0 "a" st0
          [NetEvent.reply "smtp" "mx" "a" 0]).result =
        QueryResult.ok rep0 stA →
       stA.last_addr = "a" ∧ stA.last_reply = rep0) ∧
     ((resolve_clnt_query cfg0 1 0 "a" st0
          [NetEvent.reply "smtp" "mx" "a" 0]).result =
        QueryResult.pending stA →
       stA.last_addr = (lazyInit st0).last_addr ∧
       stA.last_reply = (lazyInit st0).last_reply)) := by
  refine ⟨by decide, ?_⟩
  exact C3_cache_update cfg0 1 0 "a" st0 [NetEvent.reply "smtp" "mx" "a" 0]
    rep0 stA stA (by decide)

/-- C4 counterexample: an input pointer that points into the storage of
reply.recipient (base 5, size 4; pointer 6) without being its base address
is not caught by the sanity check: the call does not abort — it performs a
network round trip and returns normally. -/
theorem C4_alias_counterexample :
    pointsInto 6 5 4 ∧
    (resolve_clnt_query cfg0 6 5 "x" st0
        [NetEvent.reply "smtp" "mx" "u@d" 0]).result =
      QueryResult.ok
        { transport := "smtp", nexthop := "mx", recipient := "u@d",
          flags := 0 }
        { last_addr_alloc := true, last_addr := "x",
          last_reply := { transport := "smtp", nexthop := "mx",
                          recipient := "u@d", flags := 0 },
          stream_exists := true } ∧
    Action.accessStream ∈
      (resolve_clnt_query cfg0 6 5 "x" st0
        [NetEvent.reply "smtp" "mx" "u@d" 0]).trace :=
  ⟨⟨by decide, by decide⟩, by decide, by decide⟩

/-- C4 (amended): when the input address pointer equals the base pointer of
reply.recipient's storage — the aliasing the C check compares for — the call
panics with a diagnostic naming resolve_clnt_query and its trace is empty,
so the abort happens before any network I/O; an interior pointer into the
recipient's storage is not detected. -/
theorem C4_alias_base_panics (cfg : Config) (b : Nat) (addr : String)
    (st : ClntState) (evs : List NetEvent) :
    resolve_clnt_query cfg b b addr st evs =
      { result := QueryResult.panicked panicMsg, trace := [] } := by
  simp [resolve_clnt_query]

set_option linter.unusedVariables false in
/-- C5: a reply whose flags include FAIL or ERROR is not a retry condition:
provided transport is non-empty (and recipient non-empty for a non-empty
input address) the reply is accepted on the spot — the trace shows a single
round trip, no sleep and no recovery — and it is returned to the caller with
the flag bits intact. -/
theorem C5_fail_error_not_retried (cfg : Config) (p b : Nat) (addr : String)
    (st : ClntState) (evs : List NetEvent) (t h r : String) (f : Nat)
    (hp : p ≠ b) (hmiss : ¬(addr ≠ "" ∧ addr = (lazyInit st).last_addr))
    (ht : t ≠ "") (hr : addr ≠ "" → r ≠ "")
    (hf : f &&& (RESOLVE_FLAG_FAIL ||| RESOLVE_FLAG_ERROR) ≠ 0) :
    (resolve_clnt_query cfg p b addr st
        (NetEvent.reply t h r f :: evs)).result =
      QueryResult.ok
        { transport := t, nexthop := h, recipient := r, flags := f }
        { ensureStream (lazyInit st) with
          last_addr := addr,
          last_reply := { transport := t, nexthop := h, recipient := r,
                          flags := f } } ∧
    (resolve_clnt_query cfg p b addr st
        (NetEvent.reply t h r f :: evs)).trace =
      ensureStreamActs cfg (lazyInit st)
        ++ (requestActs addr ++ [Action.readReply true scanAttrs]) := by
  have hiter : iterOutcome cfg addr (NetEvent.reply t h r f) =
      (some { transport := t, nexthop := h, recipient := r, flags := f },
       requestActs addr ++ [Action.readReply true scanAttrs]) := by
    simp only [iterOutcome]
    rw [if_neg ht, if_neg (fun hc => hr hc.2 hc.1)]
  have hloop := retryLoop_cons_some cfg addr (NetEvent.reply t h r f) evs
    { transport := t, nexthop := h, recipient := r, flags := f }
    (requestActs addr ++ [Action.readReply true scanAttrs]) hiter
  rw [query_miss_eq cfg p b addr st (NetEvent.reply t h r f :: evs) hp hmiss,
      queryMiss_some cfg addr (lazyInit st) (NetEvent.reply t h r f :: evs)
        _ _ hloop]
  exact ⟨rfl, rfl⟩

/-- Witness for C5 at a concrete run carrying FAIL and ERROR bits. -/
theorem C5_fail_error_not_retried_witness :
    ((1 : Nat) ≠ 0 ∧ ¬(("e@x" : String) ≠ "" ∧ "e@x" = (lazyInit st0).last_addr) ∧
      ("error" : String) ≠ "" ∧ (("e@x" : String) ≠ "" → ("e@x" : String) ≠ "") ∧
      (12 : Nat) &&& (RESOLVE_FLAG_FAIL ||| RESOLVE_FLAG_ERROR) ≠ 0) ∧
    (resolve_clnt_query cfg0 1 0 "e@x" st0
        [NetEvent.reply "error" "" "e@x" 12]).result =
      QueryResult.ok
        { transport := "error", nexthop := "", recipient := "e@x",
          flags := 12 }
        { ensureStream (lazyInit st0) with
          last_addr := "e@x",
          last_reply := { transport := "error", nexthop := "",
                          recipient := "e@x", flags := 12 } } ∧
    (resolve_clnt_query cfg0 1 0 "e@x" st0
        [NetEvent.reply "error" "" "e@x" 12]).trace =
      ensureStreamActs cfg0 (lazyInit st0)
        ++ (requestActs "e@x" ++ [Action.readReply true scanAttrs]) := by
  refine ⟨⟨by decide, by decide, by decide, by decide, by decide⟩, ?_, ?_⟩
  · exact (C5_fail_error_not_retried cfg0 1 0 "e@x" st0 []
      "error" "" "e@x" 12 (by decide) (by decide) (by decide) (by decide)
      (by decide)).1
  · exact (C5_fail_error_not_retried cfg0 1 0 "e@x" st0 []
      "error" "" "e@x" 12 (by decide) (by decide) (by decide) (by decide)
      (by decide)).2

/-- C6: on a cache miss the reply is read by a strict scan whose shape is
the four attribute names transport, nexthop, recipient, flags in that fixed
order; a scan that does not yield exactly those four attributes (readFail)
leaves the overall result that of the remaining attempts — after the strict
read attempt, an errno-filtered warning, the 10 second sleep and a recovery,
an iteration outcome identical (for retry purposes) to that of an I/O
failure. -/
theorem C6_strict_scan_retry (cfg : Config) (p b : Nat) (addr : String)
    (st : ClntState) (evs : List NetEvent) (e : Nat)
    (hp : p ≠ b) (hmiss : ¬(addr ≠ "" ∧ addr = (lazyInit st).last_addr)) :
    (resolve_clnt_query cfg p b addr st
        (NetEvent.readFail e :: evs)).result =
      (resolve_clnt_query cfg p b addr st evs).result ∧
    (resolve_clnt_query cfg p b addr st (NetEvent.readFail e :: evs)).trace =
      ensureStreamActs cfg (lazyInit st)
        ++ ((requestActs addr
              ++ [Action.readReply true
                    [MAIL_ATTR_TRANSPORT, MAIL_ATTR_NEXTHOP, MAIL_ATTR_RECIP,
                     MAIL_ATTR_FLAGS]]
              ++ warnIf cfg e Action.warnBadRead
              ++ [Action.sleepSecs 10, Action.recover])
            ++ (retryLoop cfg addr evs).2) ∧
    (iterOutcome cfg addr (NetEvent.readFail e)).1 =
      (iterOutcome cfg addr (NetEvent.writeFail e)).1 := by
  have hiter : iterOutcome cfg addr (NetEvent.readFail e) =
      (none, requestActs addr ++ [Action.readReply true scanAttrs]
        ++ warnIf cfg e Action.warnBadRead
        ++ [Action.sleepSecs 10, Action.recover]) := rfl
  have hcons := retryLoop_cons_none cfg addr (NetEvent.readFail e) evs _ hiter
  rw [query_miss_eq cfg p b addr st (NetEvent.readFail e :: evs) hp hmiss,
      query_miss_eq cfg p b addr st evs hp hmiss]
  rcases hloop : retryLoop cfg addr evs with ⟨res, acts⟩
  rw [hloop] at hcons
  cases res with
  | some rep =>
      rw [queryMiss_some cfg addr (lazyInit st) (NetEvent.readFail e :: evs)
            rep _ hcons,
          queryMiss_some cfg addr (lazyInit st) evs rep acts hloop]
      exact ⟨rfl, rfl, rfl⟩
  | none =>
      rw [queryMiss_none cfg addr (lazyInit st) (NetEvent.readFail e :: evs)
            _ hcons,
          queryMiss_none cfg addr (lazyInit st) evs acts hloop]
      exact ⟨rfl, rfl, rfl⟩

/-- Witness for C6 at a concrete run: a malformed reply then a good one. -/
theorem C6_strict_scan_retry_witness :
    ((1 : Nat) ≠ 0 ∧
      ¬(("a" : String) ≠ "" ∧ "a" = (lazyInit st0).last_addr)) ∧
    ((resolve_clnt_query cfg0 1 0 "a" st0
        (NetEvent.readFail 5 :: [NetEvent.reply "smtp" "mx" "a" 0])).result =
      (resolve_clnt_query cfg0 1 0 "a" st0
        [NetEvent.reply "smtp" "mx" "a" 0]).result ∧
    (resolve_clnt_query cfg0 1 0 "a" st0
        (NetEvent.readFail 5 :: [NetEvent.reply "smtp" "mx" "a" 0])).trace =
      ensureStreamActs cfg0 (lazyInit st0)
        ++ ((requestActs "a"
              ++ [Action.readReply true
                    [MAIL_ATTR_TRANSPORT, MAIL_ATTR_NEXTHOP, MAIL_ATTR_RECIP,
                     MAIL_ATTR_FLAGS]]
              ++ warnIf cfg0 5 Action.warnBadRead
              ++ [Action.sleepSecs 10, Action.recover])
            ++ (retryLoop cfg0 "a" [NetEvent.reply "smtp" "mx" "a" 0]).2) ∧
    (iterOutcome cfg0 "a" (NetEvent.readFail 5)).1 =
      (iterOutcome cfg0 "a" (NetEvent.writeFail 5)).1) := by
  refine ⟨⟨by decide, by decide⟩, ?_⟩
  exact C6_strict_scan_retry cfg0 1 0 "a" st0
    [NetEvent.reply "smtp" "mx" "a" 0] 5 (by decide) (by decide)

/-- C7: on a write or flush failure the client warns exactly when verbose or
the errno is neither EPIPE nor ENOENT (the two expected end-of-connection
values), then sleeps the fixed 10 second backoff and recovers the
connection, and the remaining attempts decide the result. -/
theorem C7_write_failure_retry (cfg : Config) (p b : Nat) (addr : String)
    (st : ClntState) (evs : List NetEvent) (e : Nat)
    (hp : p ≠ b) (hmiss : ¬(addr ≠ "" ∧ addr = (lazyInit st).last_addr)) :
    (resolve_clnt_query cfg p b addr st
        (NetEvent.writeFail e :: evs)).result =
      (resolve_clnt_query cfg p b addr st evs).result ∧
    (resolve_clnt_query cfg p b addr st (NetEvent.writeFail e :: evs)).trace =
      ensureStreamActs cfg (lazyInit st)
        ++ ((requestActs addr
              ++ (if cfg.msg_verbose ∨ (e ≠ EPIPE ∧ e ≠ ENOENT)
                  then [Action.warnBadWrite] else [])
              ++ [Action.sleepSecs 10, Action.recover])
            ++ (retryLoop cfg addr evs).2) := by
  have hiter : iterOutcome cfg addr (NetEvent.writeFail e) =
      (none, requestActs addr ++ warnIf cfg e Action.warnBadWrite
        ++ [Action.sleepSecs 10, Action.recover]) := rfl
  have hcons := retryLoop_cons_none cfg addr (NetEvent.writeFail e) evs _ hiter
  rw [query_miss_eq cfg p b addr st (NetEvent.writeFail e :: evs) hp hmiss,
      query_miss_eq cfg p b addr st evs hp hmiss]
  rcases hloop : retryLoop cfg addr evs with ⟨res, acts⟩
  rw [hloop] at hcons
  cases res with
  | some rep =>
      rw [queryMiss_some cfg addr (lazyInit st) (NetEvent.writeFail e :: evs)
            rep _ hcons,
          queryMiss_some cfg addr (lazyInit st) evs rep acts hloop]
      exact ⟨rfl, rfl⟩
  | none =>
      rw [queryMiss_none cfg addr (lazyInit st) (NetEvent.writeFail e :: evs)
            _ hcons,
          queryMiss_none cfg addr (lazyInit st) evs acts hloop]
      exact ⟨rfl, rfl⟩

/-- Witness for C7 at a concrete run: an EPIPE write failure (warning
suppressed at non-verbose level) then a good reply. -/
theorem C7_write_failure_retry_witness :
    ((1 : Nat) ≠ 0 ∧
      ¬(("a" : String) ≠ "" ∧ "a" = (lazyInit st0).last_addr)) ∧
    ((resolve_clnt_query cfg0 1 0 "a" st0
        (NetEvent.writeFail EPIPE :: [NetEvent.reply "smtp" "mx" "a" 0])).result =
      (resolve_clnt_query cfg0 1 0 "a" st0
        [NetEvent.reply "smtp" "mx" "a" 0]).result ∧
    (resolve_clnt_query cfg0 1 0 "a" st0
        (NetEvent.writeFail EPIPE :: [NetEvent.reply "smtp" "mx" "a" 0])).trace =
      ensureStreamActs cfg0 (lazyInit st0)
        ++ ((requestActs "a"
              ++ (if cfg0.msg_verbose ∨ (EPIPE ≠ EPIPE ∧ EPIPE ≠ ENOENT)
                  then [Action.warnBadWrite] else [])
              ++ [Action.sleepSecs 10, Action.recover])
            ++ (retryLoop cfg0 "a" [NetEvent.reply "smtp" "mx" "a" 0]).2)) := by
  refine ⟨⟨by decide, by decide⟩, ?_⟩
  exact C7_write_failure_retry cfg0 1 0 "a" st0
    [NetEvent.reply "smtp" "mx" "a" 0] EPIPE (by decide) (by decide)

/-- C8: a query with an empty input address bypasses the cache-hit branch —
even a cached empty key is never matched, so with no network events the call
is still waiting on the daemon rather than answering from the cache — and
the empty-recipient validation is skipped: a reply with empty recipient (and
non-empty transport) is accepted and returned verbatim. -/
theorem C8_empty_address (cfg : Config) (p b : Nat) (st : ClntState)
    (t h : String) (f : Nat) (hp : p ≠ b) (ht : t ≠ "") :
    (resolve_clnt_query cfg p b "" st []).result =
      QueryResult.pending (ensureStream (lazyInit st)) ∧
    (resolve_clnt_query cfg p b "" st [NetEvent.reply t h "" f]).result =
      QueryResult.ok
        { transport := t, nexthop := h, recipient := "", flags := f }
        { ensureStream (lazyInit st) with
          last_addr := "",
          last_reply := { transport := t, nexthop := h, recipient := "",
                          flags := f } } := by
  have hmiss : ¬(("" : String) ≠ "" ∧ ("" : String) = (lazyInit st).last_addr) :=
    fun hc => hc.1 rfl
  constructor
  · rw [query_miss_eq cfg p b "" st [] hp hmiss,
        queryMiss_none cfg "" (lazyInit st) [] [] (retryLoop_nil cfg "")]
  · have hiter : iterOutcome cfg "" (NetEvent.reply t h "" f) =
        (some { transport := t, nexthop := h, recipient := "", flags := f },
         requestActs "" ++ [Action.readReply true scanAttrs]) := by
      simp only [iterOutcome]
      rw [if_neg ht, if_neg (fun hc => hc.2 rfl)]
    have hloop := retryLoop_cons_some cfg "" (NetEvent.reply t h "" f) []
      { transport := t, nexthop := h, recipient := "", flags := f }
      (requestActs "" ++ [Action.readReply true scanAttrs]) hiter
    rw [query_miss_eq cfg p b "" st [NetEvent.reply t h "" f] hp hmiss,
        queryMiss_some cfg "" (lazyInit st) [NetEvent.reply t h "" f]
          _ _ hloop]

/-- Witness for C8 at a concrete state holding a cached entry. -/
theorem C8_empty_address_witness :
    ((1 : Nat) ≠ 0 ∧ ("local" : String) ≠ "") ∧
    ((resolve_clnt_query cfg0 1 0 "" stA []).result =
      QueryResult.pending (ensureStream (lazyInit stA)) ∧
    (resolve_clnt_query cfg0 1 0 "" stA
        [NetEvent.reply "local" "" "" 0]).result =
      QueryResult.ok
        { transport := "local", nexthop := "", recipient := "", flags := 0 }
        { ensureStream (lazyInit stA) with
          last_addr := "",
          last_reply := { transport := "local", nexthop := "",
                          recipient := "", flags := 0 } }) := by
  refine ⟨⟨by decide, by decide⟩, ?_⟩
  exact C8_empty_address cfg0 1 0 stA "local" "" 0 (by decide) (by decide)

/-- C9: on a cache miss from a state in which the shared stream does not yet
exist, the first action of the query is the creation of the client stream,
naming the private service class, the configured service name, and the idle
and TTL tunables; everything after it is the retry loop's I/O. -/
theorem C9_lazy_stream_creation (cfg : Config) (p b : Nat) (addr : String)
    (st : ClntState) (evs : List NetEvent)
    (hp : p ≠ b) (hmiss : ¬(addr ≠ "" ∧ addr = (lazyInit st).last_addr))
    (hns : st.stream_exists = false) :
    (resolve_clnt_query cfg p b addr st evs).trace =
      Action.createStream MAIL_CLASS_PRIVATE cfg.var_rewrite_service
          cfg.var_ipc_idle_limit cfg.var_ipc_ttl_limit
        :: (retryLoop cfg addr evs).2 := by
  have hE : ensureStreamActs cfg (lazyInit st) =
      [Action.createStream MAIL_CLASS_PRIVATE cfg.var_rewrite_service
        cfg.var_ipc_idle_limit cfg.var_ipc_ttl_limit] := by
    simp [ensureStreamActs, lazyInit_stream, hns]
  rw [query_miss_eq cfg p b addr st evs hp hmiss]
  rcases hloop : retryLoop cfg addr evs with ⟨res, acts⟩
  cases res with
  | some rep =>
      rw [queryMiss_some cfg addr (lazyInit st) evs rep acts hloop, hE]
      rfl
  | none =>
      rw [queryMiss_none cfg addr (lazyInit st) evs acts hloop, hE]
      rfl

/-- Witness for C9 at a concrete fresh-state run. -/
theorem C9_lazy_stream_creation_witness :
    ((1 : Nat) ≠ 0 ∧
      ¬(("a" : String) ≠ "" ∧ "a" = (lazyInit st0).last_addr) ∧
      st0.stream_exists = false) ∧
    (resolve_clnt_query cfg0 1 0 "a" st0
        [NetEvent.reply "smtp" "mx" "a" 0]).trace =
      Action.createStream MAIL_CLASS_PRIVATE cfg0.var_rewrite_service
          cfg0.var_ipc_idle_limit cfg0.var_ipc_ttl_limit
        :: (retryLoop cfg0 "a" [NetEvent.reply "smtp" "mx" "a" 0]).2 := by
  refine ⟨⟨by decide, by decide, by decide⟩, ?_⟩
  exact C9_lazy_stream_creation cfg0 1 0 "a" st0
    [NetEvent.reply "smtp" "mx" "a" 0] (by decide) (by decide) (by decide)

/-- C10: a successful query for the empty address overwrites the cache key
with the empty string — the encoding of "no entry" — so the cache is
invalidated: any subsequent query, for any address, misses the cache (with
no events it is still pending rather than cache-answered) and goes to the
network (its trace contains a stream access). -/
theorem C10_empty_query_invalidates (cfg cfg2 : Config) (p b p2 b2 : Nat)
    (st : ClntState) (evs : List NetEvent) (rep : RESOLVE_REPLY)
    (st' : ClntState) (a t h r : String) (f : Nat)
    (hok : (resolve_clnt_query cfg p b "" st evs).result =
            QueryResult.ok rep st')
    (hp2 : p2 ≠ b2) (ht : t ≠ "") (hr : r ≠ "") :
    st'.last_addr = "" ∧
    (resolve_clnt_query cfg2 p2 b2 a st' []).result =
      QueryResult.pending (ensureStream st') ∧
    Action.accessStream ∈
      (resolve_clnt_query cfg2 p2 b2 a st'
        [NetEvent.reply t h r f]).trace := by
  obtain ⟨hA, hKey, -⟩ := query_ok_state cfg p b "" st evs rep st' hok
  have hmiss2 : ¬(a ≠ "" ∧ a = (lazyInit st').last_addr) := by
    rw [lazyInit_of_alloc st' hA, hKey]
    exact fun hc => hc.1 hc.2
  refine ⟨hKey, ?_, ?_⟩
  · rw [query_miss_eq cfg2 p2 b2 a st' [] hp2 hmiss2,
        queryMiss_none cfg2 a (lazyInit st') [] [] (retryLoop_nil cfg2 a),
        lazyInit_of_alloc st' hA]
  · have hiter : iterOutcome cfg2 a (NetEvent.reply t h r f) =
        (some { transport := t, nexthop := h, recipient := r, flags := f },
         requestActs a ++ [Action.readReply true scanAttrs]) := by
      simp only [iterOutcome]
      rw [if_neg ht, if_neg (fun hc => hr hc.1)]
    have hloop := retryLoop_cons_some cfg2 a (NetEvent.reply t h r f) []
      { transport := t, nexthop := h, recipient := r, flags := f }
      (requestActs a ++ [Action.readReply true scanAttrs]) hiter
    rw [query_miss_eq cfg2 p2 b2 a st' [NetEvent.reply t h r f] hp2 hmiss2,
        queryMiss_some cfg2 a (lazyInit st') [NetEvent.reply t h r f]
          _ _ hloop]
    simp [requestActs]

/-- Witness for C10 at a concrete pair of runs. -/
theorem C10_empty_query_invalidates_witness :
    ((resolve_clnt_query cfg0 1 0 "" st0
        [NetEvent.reply "local" "" "" 0]).result =
      QueryResult.ok
        { transport := "local", nexthop := "", recipient := "", flags := 0 }
        { last_addr_alloc := true, last_addr := "",
          last_reply := { transport := "local", nexthop := "",
                          recipient := "", flags := 0 },
          stream_exists := true } ∧
      (2 : Nat) ≠ 7 ∧ ("smtp" : String) ≠ "" ∧ ("u@d" : String) ≠ "") ∧
    ({ last_addr_alloc := true, last_addr := "",
       last_reply := { transport := "local", nexthop := "",
                       recipient := "", flags := 0 },
       stream_exists := true : ClntState }.last_addr = "" ∧
    (resolve_clnt_query cfg0 2 7 "a"
        { last_addr_alloc := true, last_addr := "",
          last_reply := { transport := "local", nexthop := "",
                          recipient := "", flags := 0 },
          stream_exists := true } []).result =
      QueryResult.pending (ensureStream
        { last_addr_alloc := true, last_addr := "",
          last_reply := { transport := "local", nexthop := "",
                          recipient := "", flags := 0 },
          stream_exists := true }) ∧
    Action.accessStream ∈
      (resolve_clnt_query cfg0 2 7 "a"
        { last_addr_alloc := true, last_addr := "",
          last_reply := { transport := "local", nexthop := "",
                          recipient := "", flags := 0 },
          stream_exists := true }
        [NetEvent.reply "smtp" "mx" "u@d" 0]).trace) := by
  refine ⟨⟨by decide, by decide, by decide, by decide⟩, ?_⟩
  exact C10_empty_query_invalidates cfg0 cfg0 1 0 2 7 st0
    [NetEvent.reply "local" "" "" 0]
    { transport := "local", nexthop := "", recipient := "", flags := 0 }
    { last_addr_alloc := true, last_addr := "",
      last_reply := { transport := "local", nexthop := "",
                      recipient := "", flags := 0 },
      stream_exists := true }
    "a" "smtp" "mx" "u@d" 0 (by decide) (by decide) (by decide) (by decide)

end ResolveClnt
